import Mathlib

/-!
Verification of the smart-irrigation backend core against its specification.

The development shallowly embeds the two core components of the repository:

* the Irrigation Safety Engine (`services/irrigation_service.py`): in-memory
  state of active irrigation sessions per zone, the safety checks guarding
  `start_irrigation`, and the `stop_irrigation` / `stop_all_irrigation`
  transitions, together with the MQTT command-publish boundary
  (`services/mqtt_service.py`);
* the real-time fan-out core: the rate-limited `WebSocketManager.broadcast`
  of `utils/websocket_manager.py` and the `ConnectionManager` fan-out of
  `services/websocket_manager.py`.

Python `datetime` instants are embedded as natural numbers of seconds (UTC),
`dict`s as association lists (with the key-uniqueness representation
invariant every Python dict satisfies structurally), floats that are only
ever compared against the 85.0 threshold as rationals, and the external
collaborators (InfluxDB moisture queries, the MQTT broker connection) as an
explicit environment.  Operations that perform I/O return, besides their
result and the successor state, the list of MQTT commands handed to the
publish interface, so that the actuation side effects are visible to the
theorems.
-/

namespace Irrigation

/-! ## Association-list embedding of Python `dict` -/

/-- Python `d.get(k)` / `d[k]`: value of the first entry with key `k`. -/
def alookup {κ α : Type} [DecidableEq κ] (k : κ) : List (κ × α) → Option α
  | [] => none
  | p :: rest => if p.1 = k then some p.2 else alookup k rest

/-- Python `k in d`. -/
def amem {κ α : Type} [DecidableEq κ] (k : κ) (l : List (κ × α)) : Bool :=
  (alookup k l).isSome

/-- Python `d[k] = v`: replace the entry in place, or append a new one. -/
def aset {κ α : Type} [DecidableEq κ] (k : κ) (v : α) : List (κ × α) → List (κ × α)
  | [] => [(k, v)]
  | p :: rest => if p.1 = k then (k, v) :: rest else p :: aset k v rest

/-- Python `del d[k]`. -/
def aerase {κ α : Type} [DecidableEq κ] (k : κ) (l : List (κ × α)) : List (κ × α) :=
  l.filter (fun p => p.1 ≠ k)

/-- Python `list(d.keys())` (insertion order). -/
def akeys {κ α : Type} (l : List (κ × α)) : List κ :=
  l.map Prod.fst

/-! ## Time embedding

Instants are seconds since the UTC epoch.  Python's
`(b - a).seconds // 60` on a non-negative `timedelta` is the seconds part
modulo one day, floor-divided by 60; `datetime.date()` equality is equality
of the UTC calendar day. -/

/-- `(b - a).seconds` of a Python `timedelta` for `a ≤ b`. -/
def tdSeconds (a b : Nat) : Nat :=
  (b - a) % 86400

/-- `(b - a).seconds // 60`, whole elapsed minutes as the source computes them. -/
def elapsedMin (a b : Nat) : Nat :=
  tdSeconds a b / 60

/-- UTC calendar day of an instant (`datetime.date()`). -/
def dayOf (t : Nat) : Nat :=
  t / 86400

/-! ## Data model (`models/irrigation.py`, `services/irrigation_service.py`) -/

/-- `IrrigationStatus` enum. -/
inductive IrrigationStatus where
  | running
  | completed
  | stopped
  | failed
deriving DecidableEq, Repr

/-- `VALID_ZONE_IDS = list(ZONE_CONFIG.keys())`. -/
def VALID_ZONE_IDS : List Nat := [1, 2, 3, 4, 5]

/-- `MAX_DAILY_IRRIGATION_MINUTES = 120`. -/
def MAX_DAILY_IRRIGATION_MINUTES : Nat := 120

/-- `MOISTURE_SATURATION_THRESHOLD = 85.0`. -/
def MOISTURE_SATURATION_THRESHOLD : ℚ := 85

/-- `ActiveIrrigation` dataclass. -/
structure ActiveIrrigation where
  zone_id : Nat
  start_time : Nat
  duration_minutes : Nat
  user_id : String
  trigger_type : String
  event_id : Option Nat
deriving DecidableEq, Repr

/-- `IrrigationEventRecord` dataclass (`created_at` coincides with
`start_time` at creation and plays no further role). -/
structure IrrigationEventRecord where
  id : Nat
  zone_id : Nat
  start_time : Nat
  end_time : Option Nat
  duration_minutes : Nat
  trigger_type : String
  user_id : String
  status : IrrigationStatus
deriving DecidableEq, Repr

/-- The mutable state of `IrrigationService` (the schedule list, which no
claim concerns, is elided; both id counters are kept). -/
structure IrrigationService where
  active_irrigations : List (Nat × ActiveIrrigation)
  events : List IrrigationEventRecord
  next_event_id : Nat
  next_schedule_id : Nat
deriving DecidableEq, Repr

/-- `IrrigationService.__init__`. -/
def initialService : IrrigationService :=
  { active_irrigations := [], events := [], next_event_id := 1, next_schedule_id := 1 }

/-- External collaborators of the Safety Engine: whether the MQTT client is
set and connected, and the result of `get_zone_moisture` per zone (the
InfluxDB latest-value query; `none` models both a query failure and absent
data, exactly the cases in which the source returns `None`). -/
structure Env where
  mqttConnected : Bool
  moisture : Nat → Option ℚ

/-! ## MQTT publish boundary (`services/mqtt_service.py`) -/

/-- An actuation command handed to `mqtt_service.publish`: the topic is
`irrigation/control/<zone_id>` and the payload carries the action and the
optional duration. -/
structure MqttCommand where
  zone_id : Nat
  action : String
  duration : Option Nat
deriving DecidableEq, Repr

/-- Outcome of `publish_irrigation_command`: the boolean the function
returns, the command handed to `mqtt_service.publish`, and the messages
that actually reach the broker.  `MQTTService.publish` is guarded by
`if self.client and self.is_connected:` — when the client is absent or
disconnected it silently does nothing and raises no exception, so the
`except` branch of `publish_irrigation_command` is not taken and the
function returns `True` unconditionally. -/
structure PublishOutcome where
  ok : Bool
  issued : MqttCommand
  delivered : List MqttCommand
deriving DecidableEq, Repr

/-- `IrrigationService.publish_irrigation_command`. -/
def publish_irrigation_command (connected : Bool) (zone_id : Nat) (action : String)
    (duration : Option Nat) : PublishOutcome :=
  let cmd : MqttCommand := { zone_id := zone_id, action := action, duration := duration }
  { ok := true, issued := cmd, delivered := if connected then [cmd] else [] }

/-! ## Safety checks -/

/-- `validate_zone` (the boolean component; the message is elided). -/
def validate_zone (zone_id : Nat) : Bool :=
  VALID_ZONE_IDS.contains zone_id

/-- `is_zone_active`. -/
def is_zone_active (s : IrrigationService) (zone_id : Nat) : Bool :=
  amem zone_id s.active_irrigations

/-- `check_zone_conflict` (the boolean component). -/
def check_zone_conflict (s : IrrigationService) (zone_id : Nat) : Bool :=
  is_zone_active s zone_id

/-- Contribution of a single event record to `get_daily_irrigation_total`:
completed events with an end time contribute their recorded span, running
events their elapsed time at query time, all other statuses nothing. -/
def eventDailyContribution (now zone_id : Nat) (e : IrrigationEventRecord) : Nat :=
  if e.zone_id = zone_id ∧ dayOf e.start_time = dayOf now then
    if e.status = IrrigationStatus.completed ∧ e.end_time.isSome then
      elapsedMin e.start_time (e.end_time.getD 0)
    else if e.status = IrrigationStatus.running then
      elapsedMin e.start_time now
    else 0
  else 0

/-- `get_daily_irrigation_total`. -/
def get_daily_irrigation_total (now : Nat) (s : IrrigationService) (zone_id : Nat) : Nat :=
  (s.events.map (eventDailyContribution now zone_id)).sum

/-- `check_daily_limit` (the boolean component). -/
def check_daily_limit (now : Nat) (s : IrrigationService) (zone_id duration_minutes : Nat) : Bool :=
  decide (get_daily_irrigation_total now s zone_id + duration_minutes > MAX_DAILY_IRRIGATION_MINUTES)

/-- `check_saturation_risk`: risk flag and the observed moisture. -/
def check_saturation_risk (env : Env) (zone_id : Nat) : Bool × Option ℚ :=
  match env.moisture zone_id with
  | some m => (decide (m > MOISTURE_SATURATION_THRESHOLD), some m)
  | none => (false, none)

/-! ## Core operations -/

/-- Result dictionary of `start_irrigation`, restricted to the
machine-readable fields the claims concern. -/
inductive StartResult where
  | ok (event_id zone_id duration_minutes : Nat) (mqtt_published : Bool)
  | err (error_code : String)
deriving DecidableEq, Repr

/-- The `success` field of the result dictionary. -/
def StartResult.success : StartResult → Bool
  | .ok _ _ _ _ => true
  | .err _ => false

/-- The `error_code` field of the result dictionary (absent on success). -/
def StartResult.errorCode : StartResult → Option String
  | .ok _ _ _ _ => none
  | .err c => some c

/-- Result dictionary of `stop_irrigation`, restricted likewise. -/
inductive StopResult where
  | ok (zone_id actual_duration_minutes : Nat) (mqtt_published : Bool)
  | err (error_code : String)
deriving DecidableEq, Repr

/-- The `success` field. -/
def StopResult.success : StopResult → Bool
  | .ok _ _ _ => true
  | .err _ => false

/-- The `error_code` field. -/
def StopResult.errorCode : StopResult → Option String
  | .ok _ _ _ => none
  | .err c => some c

/-- Result dictionary of `stop_all_irrigation`. -/
structure StopAllResult where
  success : Bool
  stopped_zones : List Nat
  failed_zones : List Nat
  mqtt_published : Bool
deriving DecidableEq, Repr

/-- An operation outcome: result, successor state, and the commands handed
to the publish interface, in order. -/
structure StartOutcome where
  result : StartResult
  state : IrrigationService
  issued : List MqttCommand
deriving DecidableEq, Repr

structure StopOutcome where
  result : StopResult
  state : IrrigationService
  issued : List MqttCommand
deriving DecidableEq, Repr

structure StopAllOutcome where
  result : StopAllResult
  state : IrrigationService
  issued : List MqttCommand
deriving DecidableEq, Repr

/-- `start_irrigation`: the four checks in source order, then the commit
(append the event record, bump the id counter, insert the
`ActiveIrrigation`, publish the start command). -/
def start_irrigation (env : Env) (now : Nat) (s : IrrigationService)
    (zone_id duration_minutes : Nat) (trigger_type user_id : String) : StartOutcome :=
  if !validate_zone zone_id then
    { result := .err "INVALID_ZONE", state := s, issued := [] }
  else if check_zone_conflict s zone_id then
    { result := .err "ZONE_ALREADY_ACTIVE", state := s, issued := [] }
  else if check_daily_limit now s zone_id duration_minutes then
    { result := .err "DAILY_LIMIT_EXCEEDED", state := s, issued := [] }
  else if (check_saturation_risk env zone_id).1 then
    { result := .err "MOISTURE_TOO_HIGH", state := s, issued := [] }
  else
    let event : IrrigationEventRecord :=
      { id := s.next_event_id, zone_id := zone_id, start_time := now, end_time := none,
        duration_minutes := duration_minutes, trigger_type := trigger_type,
        user_id := user_id, status := .running }
    let s1 : IrrigationService :=
      { s with events := s.events ++ [event], next_event_id := s.next_event_id + 1 }
    let active : ActiveIrrigation :=
      { zone_id := zone_id, start_time := now, duration_minutes := duration_minutes,
        user_id := user_id, trigger_type := trigger_type, event_id := some event.id }
    let s2 : IrrigationService :=
      { s1 with active_irrigations := aset zone_id active s1.active_irrigations }
    let pub := publish_irrigation_command env.mqttConnected zone_id "start" (some duration_minutes)
    { result := .ok event.id zone_id duration_minutes pub.ok, state := s2, issued := [pub.issued] }

/-- The in-place update loop of `stop_irrigation`: set `end_time` and
status `stopped` on the first event whose id equals the session's
`event_id`, then break. -/
def finalizeEvent (eid : Option Nat) (now : Nat) : List IrrigationEventRecord → List IrrigationEventRecord
  | [] => []
  | e :: rest =>
    if some e.id = eid then
      { e with end_time := some now, status := .stopped } :: rest
    else
      e :: finalizeEvent eid now rest

/-- `stop_irrigation`. -/
def stop_irrigation (env : Env) (now : Nat) (s : IrrigationService)
    (zone_id : Nat) (_user_id : String) : StopOutcome :=
  match alookup zone_id s.active_irrigations with
  | none => { result := .err "ZONE_NOT_ACTIVE", state := s, issued := [] }
  | some active =>
    let actual_duration := elapsedMin active.start_time now
    let s1 : IrrigationService :=
      { s with events := finalizeEvent active.event_id now s.events,
               active_irrigations := aerase zone_id s.active_irrigations }
    let pub := publish_irrigation_command env.mqttConnected zone_id "stop" none
    { result := .ok zone_id actual_duration pub.ok, state := s1, issued := [pub.issued] }

/-- The per-zone loop of `stop_all_irrigation` over the snapshot of active
zone ids, threading state and accumulating stopped/failed lists and issued
commands. -/
def stopAllLoop (env : Env) (now : Nat) (user_id : String) :
    List Nat → IrrigationService → List Nat → List Nat → List MqttCommand →
    IrrigationService × List Nat × List Nat × List MqttCommand
  | [], s, st, fl, ms => (s, st, fl, ms)
  | z :: rest, s, st, fl, ms =>
    let o := stop_irrigation env now s z user_id
    if o.result.success then
      stopAllLoop env now user_id rest o.state (st ++ [z]) fl (ms ++ o.issued)
    else
      stopAllLoop env now user_id rest o.state st (fl ++ [z]) (ms ++ o.issued)

/-- `stop_all_irrigation`: stop every tracked zone, then publish a stop
command to every configured zone id as a safety measure. -/
def stop_all_irrigation (env : Env) (now : Nat) (s : IrrigationService)
    (user_id : String) : StopAllOutcome :=
  let active_zones := akeys s.active_irrigations
  let r := stopAllLoop env now user_id active_zones s [] [] []
  let safety := VALID_ZONE_IDS.map (fun z => publish_irrigation_command env.mqttConnected z "stop" none)
  { result :=
      { success := r.2.2.1.isEmpty,
        stopped_zones := r.2.1,
        failed_zones := r.2.2.1,
        mqtt_published := safety.all (fun p => p.ok) },
    state := r.1,
    issued := r.2.2.2 ++ safety.map (fun p => p.issued) }

/-! ## Concrete fixtures used by the closed theorems and witnesses -/

/-- Environment with a connected broker and no moisture data available. -/
def envNone : Env := { mqttConnected := true, moisture := fun _ => none }

/-- Environment reporting 90% moisture for every zone. -/
def env90 : Env := { mqttConnected := true, moisture := fun _ => some 90 }

/-- Environment reporting exactly the 85% threshold for every zone. -/
def env85 : Env := { mqttConnected := true, moisture := fun _ => some 85 }

/-- State after a successful start of zone 1 for 30 minutes at instant 0. -/
def sZone1Active : IrrigationService :=
  (start_irrigation envNone 0 initialService 1 30 "manual" "alice").state

/-- State with zones 1 and 3 running. -/
def sZones13Active : IrrigationService :=
  (start_irrigation envNone 0 sZone1Active 3 40 "manual" "alice").state

/-- State after starting zone 1 for 30 minutes at instant 0 and stopping it
exactly 30 minutes (1800 s) later. -/
def c2AfterStop : IrrigationService :=
  (stop_irrigation envNone 1800 sZone1Active 1 "alice").state

/-! ## The Safety-Engine invariant and reachable states -/

/-- The representation invariant of the per-zone session map: at most one
session per zone (unique keys), and only configured zones ever appear. -/
def Inv (s : IrrigationService) : Prop :=
  (akeys s.active_irrigations).Nodup ∧
    ∀ z ∈ akeys s.active_irrigations, z ∈ VALID_ZONE_IDS

/-- States reachable from the freshly initialized service by any sequence
of start / stop / emergency-stop calls, under arbitrary environments,
instants and arguments. -/
inductive Reachable : IrrigationService → Prop
  | init : Reachable initialService
  | start (env : Env) (now zone_id duration_minutes : Nat) (trigger_type user_id : String)
      {s : IrrigationService} :
      Reachable s → Reachable (start_irrigation env now s zone_id duration_minutes trigger_type user_id).state
  | stop (env : Env) (now zone_id : Nat) (user_id : String) {s : IrrigationService} :
      Reachable s → Reachable (stop_irrigation env now s zone_id user_id).state
  | stopAll (env : Env) (now : Nat) (user_id : String) {s : IrrigationService} :
      Reachable s → Reachable (stop_all_irrigation env now s user_id).state

end Irrigation

namespace Fanout

open Irrigation (alookup amem aset aerase akeys)

/-! ## Transport embedding

A subscriber connection is reduced to what the fan-out logic observes of
it: an identity, and whether `send_json` on it raises.  A healthy
connection receives every message sent to it; a broken one raises on every
send (`WebSocketDisconnect` or any other exception — the source treats
both identically, collecting the connection for teardown). -/

structure WSConn where
  id : Nat
  broken : Bool
deriving DecidableEq, Repr

/-! ## `utils/websocket_manager.py` — rate-limited broadcast (`ws_manager`)

Times are milliseconds; the source compares `total_seconds()` against
`rate_limit_seconds = 1.0`, which on millisecond-precision instants is the
comparison `now - last < 1000`.  The `client_metadata` dict (never read by
`broadcast`) is elided. -/

/-- `rate_limit_seconds = 1.0`, in milliseconds. -/
def rate_limit_ms : Nat := 1000

/-- State of `WebSocketManager`: the connection set and the per-sensor
`last_broadcast_time` map. -/
structure WebSocketManager where
  active_connections : List WSConn
  last_broadcast_time : List (String × Nat)
deriving DecidableEq, Repr

/-- The delivery half of `WebSocketManager.broadcast`, entered after the
rate-limit gate has passed and the timestamp map has been updated: if no
connection is registered return `False`; otherwise send to every
connection, collect the ones whose send raised, remove them, and return
whether any connection remains. -/
def broadcastDeliver (m : WebSocketManager) : Bool × WebSocketManager × List WSConn :=
  if m.active_connections.isEmpty then
    (false, m, [])
  else
    let delivered := m.active_connections.filter (fun c => !c.broken)
    let m1 : WebSocketManager := { m with active_connections := delivered }
    (!m1.active_connections.isEmpty, m1, delivered)

/-- `WebSocketManager.broadcast`: the rate-limit gate, then delivery.  The
third component lists the connections that received the message. -/
def WebSocketManager.broadcast (m : WebSocketManager) (now : Nat) (sensor_id : String) :
    Bool × WebSocketManager × List WSConn :=
  match alookup sensor_id m.last_broadcast_time with
  | some last =>
    if now - last < rate_limit_ms then
      (false, m, [])
    else
      broadcastDeliver
        { m with last_broadcast_time := aset sensor_id now m.last_broadcast_time }
  | none =>
    broadcastDeliver
      { m with last_broadcast_time := aset sensor_id now m.last_broadcast_time }

/-- A sequence of broadcast calls for one sensor at the given instants,
counting how many of them delivered to at least one connection. -/
def broadcastSeq (sensor_id : String) : List Nat → WebSocketManager → WebSocketManager × Nat
  | [], m => (m, 0)
  | t :: ts, m =>
    let r := m.broadcast t sensor_id
    let rest := broadcastSeq sensor_id ts r.2.1
    (rest.1, (if r.2.2.isEmpty then 0 else 1) + rest.2)

/-! ## `services/websocket_manager.py` — `ConnectionManager` fan-out -/

/-- State of `ConnectionManager`: the global-stream connection list and the
per-sensor connection lists. -/
structure ConnectionManager where
  active_connections : List WSConn
  sensor_connections : List (String × List WSConn)
deriving DecidableEq, Repr

/-- `ConnectionManager.disconnect`: with a `sensor_id`, remove the
connection from that sensor's list (if present) and delete the list's key
once empty; without one, remove it from the global list. -/
def ConnectionManager.disconnect (m : ConnectionManager) (ws : WSConn)
    (sensor_id : Option String) : ConnectionManager :=
  match sensor_id with
  | some sid =>
    match alookup sid m.sensor_connections with
    | none => m
    | some conns =>
      let conns1 := if ws ∈ conns then conns.erase ws else conns
      if conns1.isEmpty then
        { m with sensor_connections := aerase sid m.sensor_connections }
      else
        { m with sensor_connections := aset sid conns1 m.sensor_connections }
  | none =>
    if ws ∈ m.active_connections then
      { m with active_connections := m.active_connections.erase ws }
    else
      m

/-- `ConnectionManager.broadcast` (global stream): send to every global
connection, catching per-connection failures, then disconnect the failed
ones.  Returns the connections that received the message. -/
def ConnectionManager.broadcast (m : ConnectionManager) : List WSConn × ConnectionManager :=
  let delivered := m.active_connections.filter (fun c => !c.broken)
  let disconnected := m.active_connections.filter (fun c => c.broken)
  (delivered, disconnected.foldl (fun acc c => acc.disconnect c none) m)

/-- `ConnectionManager.broadcast_to_sensor`: like the global broadcast but
over the list subscribed to `sensor_id`; absent key is a no-op. -/
def ConnectionManager.broadcast_to_sensor (m : ConnectionManager) (sensor_id : String) :
    List WSConn × ConnectionManager :=
  match alookup sensor_id m.sensor_connections with
  | none => ([], m)
  | some conns =>
    let delivered := conns.filter (fun c => !c.broken)
    let disconnected := conns.filter (fun c => c.broken)
    (delivered, disconnected.foldl (fun acc c => acc.disconnect c (some sensor_id)) m)

/-- Outcome of `broadcast_sensor_update`: who received the update on the
global stream, who received it on the sensor-specific stream, and the
manager afterwards. -/
structure FanoutOutcome where
  globalDelivered : List WSConn
  sensorDelivered : List WSConn
  manager : ConnectionManager
deriving DecidableEq, Repr

/-- `ConnectionManager.broadcast_sensor_update`: broadcast the update
message to the global stream, then to the subscribers of `sensor_id`. -/
def ConnectionManager.broadcast_sensor_update (m : ConnectionManager) (sensor_id : String) :
    FanoutOutcome :=
  { globalDelivered := m.broadcast.1,
    sensorDelivered := (m.broadcast.2.broadcast_to_sensor sensor_id).1,
    manager := (m.broadcast.2.broadcast_to_sensor sensor_id).2 }

/-- Well-formedness of the sensor map: empty per-sensor lists are deleted
on disconnect and keys are only created together with a first element, so
no stored list is empty. -/
def ConnectionManager.wf (m : ConnectionManager) : Bool :=
  m.sensor_connections.all (fun q => !q.2.isEmpty)

/-! ## `main.py` — the MQTT sensor-update callback (C3)

`handle_mqtt_sensor_update` is `await
connection_manager.broadcast_live_sensor_data(data)`.  Attribute dispatch
on a Python object either resolves the name among the object's attributes
or raises `AttributeError`; the attributes of `ConnectionManager` are
fixed by its class body, embedded below as the literal name list. -/

/-- The attributes `ConnectionManager` defines (instance fields set in
`__init__` plus the methods of the class body). -/
def connectionManagerAttributes : List String :=
  ["active_connections", "sensor_connections", "heartbeat_task", "heartbeat_interval",
   "connect", "disconnect", "send_personal_message", "broadcast", "broadcast_to_sensor",
   "broadcast_sensor_update", "start_heartbeat", "get_connection_stats"]

/-- Python attribute resolution: the attribute, or an `AttributeError`. -/
def pythonGetAttr (attrs : List String) (name : String) : Except String String :=
  if attrs.contains name then Except.ok name else Except.error ("AttributeError: " ++ name)

/-- What a call observes of the callback: the exception it raised, if any,
and whether a fan-out method of the registry was actually invoked. -/
structure CallbackOutcome where
  raised : Option String
  fanoutInvoked : Bool
deriving DecidableEq, Repr

/-- `handle_mqtt_sensor_update(data)`: looks up
`broadcast_live_sensor_data` on the `ConnectionManager` instance and, were
the lookup to succeed, would invoke it; the payload `data` (an arbitrary
parsed sensor message) does not influence the dispatch. -/
def handle_mqtt_sensor_update (_data : List (String × String)) : CallbackOutcome :=
  match pythonGetAttr connectionManagerAttributes "broadcast_live_sensor_data" with
  | Except.ok _ => { raised := none, fanoutInvoked := true }
  | Except.error e => { raised := some e, fanoutInvoked := false }

/-- Fixture for the C8 witness: one healthy and one broken global
connection, a healthy V1 subscriber and a broken V2 subscriber. -/
def fanoutSample : ConnectionManager :=
  { active_connections := [{ id := 1, broken := false }, { id := 2, broken := true }],
    sensor_connections :=
      [("V1", [{ id := 3, broken := false }]), ("V2", [{ id := 4, broken := true }])] }

end Fanout

namespace Irrigation

/-! ## Association-list lemmas -/

theorem alookup_cons {κ α : Type} [DecidableEq κ] (k : κ) (p : κ × α) (rest : List (κ × α)) :
    alookup k (p :: rest) = if p.1 = k then some p.2 else alookup k rest := rfl

theorem aset_cons {κ α : Type} [DecidableEq κ] (k : κ) (v : α) (p : κ × α) (rest : List (κ × α)) :
    aset k v (p :: rest) = if p.1 = k then (k, v) :: rest else p :: aset k v rest := rfl

theorem aerase_nil {κ α : Type} [DecidableEq κ] (k : κ) :
    aerase (α := α) k [] = [] := rfl

theorem aerase_cons {κ α : Type} [DecidableEq κ] (k : κ) (p : κ × α) (rest : List (κ × α)) :
    aerase k (p :: rest) = if p.1 = k then aerase k rest else p :: aerase k rest := by
  by_cases hp : p.1 = k <;> simp [aerase, List.filter_cons, hp]

theorem alookup_eq_none {κ α : Type} [DecidableEq κ] (k : κ) (l : List (κ × α)) :
    alookup k l = none ↔ k ∉ akeys l := by
  induction l with
  | nil => simp [alookup, akeys]
  | cons p rest ih =>
    rw [alookup_cons]
    by_cases h : p.1 = k
    · simp [h, akeys]
    · simp only [h, if_false, ih, akeys, List.map_cons, List.mem_cons]
      constructor
      · intro hk
        rintro (rfl | hm)
        · exact h rfl
        · exact hk hm
      · intro hk hm
        exact hk (Or.inr hm)

theorem amem_iff_mem_akeys {κ α : Type} [DecidableEq κ] (k : κ) (l : List (κ × α)) :
    amem k l = true ↔ k ∈ akeys l := by
  rw [amem, Option.isSome_iff_exists]
  constructor
  · rintro ⟨v, hv⟩
    by_contra hk
    rw [← alookup_eq_none k l] at hk
    simp [hk] at hv
  · intro hk
    cases hv : alookup k l with
    | none => exact absurd ((alookup_eq_none k l).mp hv) (by simp [hk])
    | some v => exact ⟨v, rfl⟩

theorem alookup_mem {κ α : Type} [DecidableEq κ] {k : κ} {v : α} {l : List (κ × α)} :
    alookup k l = some v → (k, v) ∈ l := by
  induction l with
  | nil => simp [alookup]
  | cons p rest ih =>
    rw [alookup_cons]
    by_cases h : p.1 = k
    · simp only [h, if_true, Option.some.injEq]
      intro hv
      rw [← h, ← hv]
      simp
    · simp only [h, if_false, List.mem_cons]
      intro hv
      exact Or.inr (ih hv)

theorem alookup_aset_eq {κ α : Type} [DecidableEq κ] (k : κ) (v : α) (l : List (κ × α)) :
    alookup k (aset k v l) = some v := by
  induction l with
  | nil => simp [aset, alookup]
  | cons p rest ih =>
    rw [aset_cons]
    by_cases h : p.1 = k
    · simp [h, alookup_cons]
    · simp [h, alookup_cons, ih]

theorem alookup_aset_ne {κ α : Type} [DecidableEq κ] {k k' : κ} (v : α) (l : List (κ × α))
    (h : k' ≠ k) : alookup k' (aset k v l) = alookup k' l := by
  have hk : ¬ (k = k') := fun hk => h hk.symm
  induction l with
  | nil => simp [aset, alookup, hk]
  | cons p rest ih =>
    rw [aset_cons]
    by_cases hp : p.1 = k
    · have h2 : ¬ (p.1 = k') := hp ▸ hk
      rw [if_pos hp]
      simp [alookup_cons, hk, h2]
    · rw [if_neg hp, alookup_cons, alookup_cons, ih]

theorem aset_self {κ α : Type} [DecidableEq κ] {k : κ} {v : α} {l : List (κ × α)}
    (h : alookup k l = some v) : aset k v l = l := by
  induction l with
  | nil => simp [alookup] at h
  | cons p rest ih =>
    rw [alookup_cons] at h
    rw [aset_cons]
    by_cases hp : p.1 = k
    · rw [if_pos hp]
      rw [if_pos hp, Option.some.injEq] at h
      rw [← hp, ← h]
    · rw [if_neg hp]
      rw [if_neg hp] at h
      rw [ih h]

theorem aset_aset {κ α : Type} [DecidableEq κ] (k : κ) (v w : α) (l : List (κ × α)) :
    aset k v (aset k w l) = aset k v l := by
  induction l with
  | nil => simp [aset]
  | cons p rest ih =>
    rw [aset_cons]
    by_cases hp : p.1 = k
    · rw [if_pos hp, aset_cons, aset_cons, if_pos hp]
      simp
    · rw [if_neg hp, aset_cons, aset_cons, if_neg hp, if_neg hp, ih]

theorem alookup_aerase_eq {κ α : Type} [DecidableEq κ] (k : κ) (l : List (κ × α)) :
    alookup k (aerase k l) = none := by
  rw [alookup_eq_none]
  intro hk
  simp only [aerase, akeys, List.mem_map] at hk
  obtain ⟨p, hp, hpk⟩ := hk
  rw [List.mem_filter] at hp
  have := hp.2
  simp [hpk] at this

theorem alookup_aerase_ne {κ α : Type} [DecidableEq κ] {k k' : κ} (l : List (κ × α))
    (h : k' ≠ k) : alookup k' (aerase k l) = alookup k' l := by
  induction l with
  | nil => rw [aerase_nil]
  | cons p rest ih =>
    rw [aerase_cons, alookup_cons]
    by_cases hp : p.1 = k
    · have hpk : ¬ (p.1 = k') := by rw [hp]; exact fun hx => h hx.symm
      rw [if_pos hp, if_neg hpk, ih]
    · rw [if_neg hp, alookup_cons]
      by_cases hp' : p.1 = k'
      · rw [if_pos hp', if_pos hp']
      · rw [if_neg hp', if_neg hp', ih]

theorem aerase_aset {κ α : Type} [DecidableEq κ] (k : κ) (v : α) (l : List (κ × α)) :
    aerase k (aset k v l) = aerase k l := by
  induction l with
  | nil => simp [aset, aerase]
  | cons p rest ih =>
    rw [aset_cons]
    by_cases hp : p.1 = k
    · rw [if_pos hp, aerase_cons, aerase_cons, if_pos hp]
      simp
    · rw [if_neg hp, aerase_cons, aerase_cons, if_neg hp, ih, if_neg hp]

theorem akeys_aset_of_not_mem {κ α : Type} [DecidableEq κ] {k : κ} (v : α) {l : List (κ × α)}
    (h : k ∉ akeys l) : akeys (aset k v l) = akeys l ++ [k] := by
  induction l with
  | nil => simp [aset, akeys]
  | cons p rest ih =>
    simp only [akeys, List.map_cons, List.mem_cons] at h
    push_neg at h
    have hp : ¬ (p.1 = k) := fun hk => h.1 hk.symm
    rw [aset_cons, if_neg hp]
    simp only [akeys, List.map_cons, List.cons_append, List.cons.injEq, true_and]
    exact ih h.2

theorem aerase_sublist {κ α : Type} [DecidableEq κ] (k : κ) (l : List (κ × α)) :
    (aerase k l).Sublist l :=
  List.filter_sublist l

theorem akeys_aerase_sublist {κ α : Type} [DecidableEq κ] (k : κ) (l : List (κ × α)) :
    (akeys (aerase k l)).Sublist (akeys l) :=
  (aerase_sublist k l).map Prod.fst

theorem inv_initial : Inv initialService := by
  constructor <;> simp [initialService, akeys]

theorem inv_start (env : Env) (now : Nat) {s : IrrigationService}
    (zone_id duration_minutes : Nat) (trigger_type user_id : String) (h : Inv s) :
    Inv (start_irrigation env now s zone_id duration_minutes trigger_type user_id).state := by
  unfold start_irrigation
  cases hv : validate_zone zone_id with
  | false => simpa [hv] using h
  | true =>
    cases hc : check_zone_conflict s zone_id with
    | true => simpa [hv, hc] using h
    | false =>
      cases hd : check_daily_limit now s zone_id duration_minutes with
      | true => simpa [hv, hc, hd] using h
      | false =>
        cases hm : (check_saturation_risk env zone_id).1 with
        | true => simpa [hv, hc, hd, hm] using h
        | false =>
          simp only [hv, hc, hd, hm, Bool.not_true, Bool.false_eq_true, if_false, if_true,
            Bool.not_false]
          have hnm : zone_id ∉ akeys s.active_irrigations := by
            intro hk
            rw [← amem_iff_mem_akeys] at hk
            simp [check_zone_conflict, is_zone_active, hk] at hc
          constructor
          · simp only [akeys_aset_of_not_mem _ hnm]
            exact List.Nodup.append h.1 (List.nodup_singleton _)
              (fun a ha hb => hnm (by rw [List.mem_singleton] at hb; rw [← hb]; exact ha))
          · intro z hz
            rw [akeys_aset_of_not_mem _ hnm] at hz
            rcases List.mem_append.mp hz with hz | hz
            · exact h.2 z hz
            · have : z = zone_id := by simpa using hz
              subst this
              simpa [validate_zone, List.elem_iff] using hv

theorem inv_stop (env : Env) (now : Nat) {s : IrrigationService}
    (zone_id : Nat) (user_id : String) (h : Inv s) :
    Inv (stop_irrigation env now s zone_id user_id).state := by
  unfold stop_irrigation
  cases ha : alookup zone_id s.active_irrigations with
  | none => simpa [ha] using h
  | some a =>
    simp only [ha]
    constructor
    · exact h.1.sublist (akeys_aerase_sublist zone_id s.active_irrigations)
    · intro z hz
      exact h.2 z ((akeys_aerase_sublist zone_id s.active_irrigations).mem hz)

theorem inv_stopAllLoop (env : Env) (now : Nat) (user_id : String) :
    ∀ (zs : List Nat) (s : IrrigationService) (st fl : List Nat) (ms : List MqttCommand),
      Inv s → Inv (stopAllLoop env now user_id zs s st fl ms).1 := by
  intro zs
  induction zs with
  | nil => intro s st fl ms h; simpa [stopAllLoop] using h
  | cons z rest ih =>
    intro s st fl ms h
    have h1 := inv_stop env now z user_id h
    unfold stopAllLoop
    cases hr : (stop_irrigation env now s z user_id).result.success
    · simpa [hr] using ih _ _ _ _ h1
    · simpa [hr] using ih _ _ _ _ h1

theorem inv_stopAll (env : Env) (now : Nat) {s : IrrigationService}
    (user_id : String) (h : Inv s) :
    Inv (stop_all_irrigation env now s user_id).state := by
  unfold stop_all_irrigation
  exact inv_stopAllLoop env now user_id _ s [] [] [] h

theorem reachable_inv {s : IrrigationService} (h : Reachable s) : Inv s := by
  induction h with
  | init => exact inv_initial
  | start env now zone_id duration_minutes trigger_type user_id _ ih =>
    exact inv_start env now zone_id duration_minutes trigger_type user_id ih
  | stop env now zone_id user_id _ ih => exact inv_stop env now zone_id user_id ih
  | stopAll env now user_id _ ih => exact inv_stopAll env now user_id ih

/-! ## Stop and emergency-stop lemmas -/

theorem stop_irrigation_active (env : Env) (now : Nat) {s : IrrigationService} {zone_id : Nat}
    (user_id : String) (h : is_zone_active s zone_id = true) :
    (stop_irrigation env now s zone_id user_id).result.success = true ∧
    (stop_irrigation env now s zone_id user_id).state.active_irrigations =
      aerase zone_id s.active_irrigations := by
  rw [is_zone_active, amem, Option.isSome_iff_exists] at h
  obtain ⟨a, ha⟩ := h
  unfold stop_irrigation
  rw [ha]
  exact ⟨rfl, rfl⟩

theorem is_zone_active_aerase_ne {s s' : IrrigationService} {z z' : Nat}
    (h : s'.active_irrigations = aerase z s.active_irrigations) (hne : z' ≠ z) :
    is_zone_active s' z' = is_zone_active s z' := by
  rw [is_zone_active, is_zone_active, amem, amem, h, alookup_aerase_ne _ hne]

theorem stopAllLoop_spec (env : Env) (now : Nat) (user_id : String) :
    ∀ (zs : List Nat) (s : IrrigationService) (st fl : List Nat) (ms : List MqttCommand),
      zs.Nodup → (∀ z ∈ zs, is_zone_active s z = true) →
      (stopAllLoop env now user_id zs s st fl ms).2.1 = st ++ zs ∧
      (stopAllLoop env now user_id zs s st fl ms).2.2.1 = fl ∧
      (stopAllLoop env now user_id zs s st fl ms).1.active_irrigations =
        zs.foldl (fun l z => aerase z l) s.active_irrigations := by
  intro zs
  induction zs with
  | nil =>
    intro s st fl ms _ _
    simp [stopAllLoop]
  | cons z rest ih =>
    intro s st fl ms hnd hact
    have hz : is_zone_active s z = true := hact z (List.mem_cons_self z rest)
    obtain ⟨hsucc, hstate⟩ := stop_irrigation_active env now user_id hz
    have hz_rest : z ∉ rest := (List.nodup_cons.mp hnd).1
    have hact' : ∀ z' ∈ rest,
        is_zone_active (stop_irrigation env now s z user_id).state z' = true := by
      intro z' hz'
      have hne : z' ≠ z := fun he => hz_rest (he ▸ hz')
      rw [is_zone_active_aerase_ne hstate hne]
      exact hact z' (List.mem_cons_of_mem z hz')
    obtain ⟨ih1, ih2, ih3⟩ := ih (stop_irrigation env now s z user_id).state (st ++ [z]) fl
      (ms ++ (stop_irrigation env now s z user_id).issued) (List.nodup_cons.mp hnd).2 hact'
    unfold stopAllLoop
    simp only [hsucc, if_true]
    refine ⟨?_, ih2, ?_⟩
    · rw [ih1, List.append_assoc]
      rfl
    · rw [ih3, List.foldl_cons, hstate]

theorem foldl_aerase_keys {α : Type} :
    ∀ (zs : List Nat) (acc : List (Nat × α)), (∀ p ∈ acc, p.1 ∈ zs) →
      zs.foldl (fun l z => aerase z l) acc = [] := by
  intro zs
  induction zs with
  | nil =>
    intro acc h
    cases acc with
    | nil => rfl
    | cons p rest => exact absurd (h p (List.mem_cons_self p rest)) (List.not_mem_nil _)
  | cons z rest ih =>
    intro acc h
    rw [List.foldl_cons]
    apply ih
    intro p hp
    rw [aerase, List.mem_filter] at hp
    have h2 : p.1 ≠ z := by simpa using hp.2
    rcases List.mem_cons.mp (h p hp.1) with h1 | h1
    · exact absurd h1 h2
    · exact h1

theorem stop_all_spec (env : Env) (now : Nat) (s : IrrigationService) (user_id : String)
    (h : (akeys s.active_irrigations).Nodup) :
    (stop_all_irrigation env now s user_id).result.stopped_zones = akeys s.active_irrigations ∧
    (stop_all_irrigation env now s user_id).result.failed_zones = [] ∧
    (stop_all_irrigation env now s user_id).result.success = true ∧
    (stop_all_irrigation env now s user_id).state.active_irrigations = [] ∧
    ∀ z ∈ VALID_ZONE_IDS,
      ({ zone_id := z, action := "stop", duration := none } : MqttCommand) ∈
        (stop_all_irrigation env now s user_id).issued := by
  have hact : ∀ z ∈ akeys s.active_irrigations, is_zone_active s z = true := by
    intro z hz
    rw [is_zone_active, amem_iff_mem_akeys]
    exact hz
  obtain ⟨h1, h2, h3⟩ :=
    stopAllLoop_spec env now user_id (akeys s.active_irrigations) s [] [] [] h hact
  unfold stop_all_irrigation
  refine ⟨by simpa using h1, by simpa using h2, by simp [h2], ?_, ?_⟩
  · simp only []
    rw [h3]
    apply foldl_aerase_keys
    intro p hp
    exact List.mem_map_of_mem Prod.fst hp
  · intro z hz
    simp only []
    apply List.mem_append_right
    rw [List.map_map]
    exact List.mem_map_of_mem _ hz

/-! ## Irrigation claim theorems -/

/-- C1: in every reachable state of the Safety Engine the per-zone session
map has pairwise-distinct zone keys, so at most one `ActiveIrrigation`
exists per zone at any instant; moreover a `start_irrigation` call on a
zone that already has an `ActiveIrrigation` returns the error code
`ZONE_ALREADY_ACTIVE`, leaves the state unchanged (creates no second
session), and issues no actuation command — and, the transition relation
being closed under all three operations, every operation preserves the
at-most-one-per-zone property. -/
theorem C1_at_most_one_session_per_zone {s : IrrigationService} (h : Reachable s) :
    (akeys s.active_irrigations).Nodup ∧
    ∀ (env : Env) (now zone_id duration_minutes : Nat) (trigger_type user_id : String),
      is_zone_active s zone_id = true →
      start_irrigation env now s zone_id duration_minutes trigger_type user_id =
        { result := .err "ZONE_ALREADY_ACTIVE", state := s, issued := [] } := by
  have hinv := reachable_inv h
  refine ⟨hinv.1, ?_⟩
  intro env now zone_id d tt u hz
  have hvz : validate_zone zone_id = true := by
    rw [validate_zone, List.elem_iff]
    exact hinv.2 zone_id ((amem_iff_mem_akeys _ _).mp hz)
  have hc : check_zone_conflict s zone_id = true := hz
  simp [start_irrigation, hvz, hc]

/-- Witness for C1: with zone 1 running (a reachable state), a second start
request for zone 1 is refused with `ZONE_ALREADY_ACTIVE` and nothing
changes. -/
theorem C1_witness :
    start_irrigation envNone 60 sZone1Active 1 45 "manual" "bob" =
      { result := .err "ZONE_ALREADY_ACTIVE", state := sZone1Active, issued := [] } := by
  have hr : Reachable sZone1Active :=
    Reachable.start envNone 0 1 30 "manual" "alice" Reachable.init
  exact (C1_at_most_one_session_per_zone hr).2 envNone 60 1 45 "manual" "bob" (by decide)

/-- C2 (code-bug exhibit): starting zone 1 for 30 minutes at instant 0 and
stopping it exactly 30 minutes later leaves the event with status
`stopped`, which `get_daily_irrigation_total` does not count (it only
counts `completed` and `running` events, and nothing in the service ever
assigns `completed`): the daily total is 0, so a subsequent 100-minute
start on the same UTC day passes the daily-limit check and succeeds
instead of failing with `DAILY_LIMIT_EXCEEDED`. -/
theorem C2_daily_cap_ignores_stopped_sessions :
    (stop_irrigation envNone 1800 sZone1Active 1 "alice").result =
      StopResult.ok 1 30 true ∧
    get_daily_irrigation_total 1800 c2AfterStop 1 = 0 ∧
    (start_irrigation envNone 1800 c2AfterStop 1 100 "manual" "alice").result.success = true ∧
    (start_irrigation envNone 1800 c2AfterStop 1 90 "manual" "alice").result.success = true := by
  refine ⟨by decide, by decide, by decide, by decide⟩

/-- C5: when the zone is valid, idle and under the daily cap, the start is
blocked with `MOISTURE_TOO_HIGH` exactly when a moisture reading is
available and strictly above the 85% threshold; a reading of exactly 85%
passes, and an unavailable reading is skipped (fail-open). -/
theorem C5_saturation_check (env : Env) (now : Nat) (s : IrrigationService)
    (zone_id duration_minutes : Nat) (trigger_type user_id : String)
    (h1 : validate_zone zone_id = true) (h2 : is_zone_active s zone_id = false)
    (h3 : check_daily_limit now s zone_id duration_minutes = false) :
    ((start_irrigation env now s zone_id duration_minutes trigger_type user_id).result.errorCode =
        some "MOISTURE_TOO_HIGH" ↔
      ∃ m, env.moisture zone_id = some m ∧ MOISTURE_SATURATION_THRESHOLD < m) ∧
    (env.moisture zone_id = none →
      (start_irrigation env now s zone_id duration_minutes trigger_type user_id).result.success =
        true) ∧
    (env.moisture zone_id = some MOISTURE_SATURATION_THRESHOLD →
      (start_irrigation env now s zone_id duration_minutes trigger_type user_id).result.success =
        true) := by
  have hc : check_zone_conflict s zone_id = false := h2
  cases hm : env.moisture zone_id with
  | none =>
    have hsucc : (start_irrigation env now s zone_id duration_minutes trigger_type
        user_id).result.success = true := by
      simp [start_irrigation, h1, hc, h3, check_saturation_risk, hm, StartResult.success]
    have herr : (start_irrigation env now s zone_id duration_minutes trigger_type
        user_id).result.errorCode = none := by
      simp [start_irrigation, h1, hc, h3, check_saturation_risk, hm, StartResult.errorCode]
    refine ⟨⟨fun hn => ?_, ?_⟩, fun _ => hsucc, fun _ => hsucc⟩
    · rw [herr] at hn
      cases hn
    · rintro ⟨m, hm2, _⟩
      cases hm2
  | some m =>
    by_cases hgt : MOISTURE_SATURATION_THRESHOLD < m
    · have herr : (start_irrigation env now s zone_id duration_minutes trigger_type
          user_id).result.errorCode = some "MOISTURE_TOO_HIGH" := by
        simp [start_irrigation, h1, hc, h3, check_saturation_risk, hm, hgt,
          StartResult.errorCode]
      refine ⟨⟨fun _ => ⟨m, rfl, hgt⟩, fun _ => herr⟩, fun hn => ?_, fun h85 => ?_⟩
      · cases hn
      · injection h85 with he
        exact absurd (he ▸ hgt) (lt_irrefl _)
    · have hsucc : (start_irrigation env now s zone_id duration_minutes trigger_type
          user_id).result.success = true := by
        simp [start_irrigation, h1, hc, h3, check_saturation_risk, hm, hgt,
          StartResult.success]
      have herr : (start_irrigation env now s zone_id duration_minutes trigger_type
          user_id).result.errorCode = none := by
        simp [start_irrigation, h1, hc, h3, check_saturation_risk, hm, hgt,
          StartResult.errorCode]
      refine ⟨⟨fun hn => ?_, ?_⟩, fun _ => hsucc, fun _ => hsucc⟩
      · rw [herr] at hn
        cases hn
      · rintro ⟨m2, hm2, hgt2⟩
        injection hm2 with he
        exact absurd (he ▸ hgt2) hgt

/-- Witness for C5: with 90% moisture the start is blocked with
`MOISTURE_TOO_HIGH`; with exactly 85% it succeeds. -/
theorem C5_witness :
    (start_irrigation env90 0 initialService 1 30 "manual" "w").result.errorCode =
      some "MOISTURE_TOO_HIGH" ∧
    (start_irrigation env85 0 initialService 1 30 "manual" "w").result.success = true := by
  refine ⟨(C5_saturation_check env90 0 initialService 1 30 "manual" "w" (by decide) (by decide)
      (by decide)).1.mpr ⟨90, rfl, by decide⟩,
    (C5_saturation_check env85 0 initialService 1 30 "manual" "w" (by decide) (by decide)
      (by decide)).2.2 rfl⟩

/-- C6 (code-bug exhibit): with the MQTT client disconnected,
`mqtt_service.publish` silently drops the message (its body is guarded by
the connection flag and raises nothing), so no command reaches the broker,
yet `publish_irrigation_command` still returns `True` for every zone and
action — it does not report whether the publish succeeded. -/
theorem C6_publish_reports_true_when_disconnected :
    ∀ (zone_id : Nat) (action : String) (duration : Option Nat),
      (publish_irrigation_command false zone_id action duration).ok = true ∧
      (publish_irrigation_command false zone_id action duration).delivered = [] := by
  intro z a d
  exact ⟨rfl, rfl⟩

/-- C7: every failing start / stop check rejects atomically: the call
returns the machine-readable error code and leaves the service state
completely unchanged (events, session map and id counters), issuing no
actuation command — for invalid zone, zone already active, daily limit
exceeded, moisture too high, and stop on an inactive zone. -/
theorem C7_error_atomicity :
    (∀ (env : Env) (now : Nat) (s : IrrigationService) (z d : Nat) (tt u : String),
       validate_zone z = false →
       start_irrigation env now s z d tt u =
         { result := .err "INVALID_ZONE", state := s, issued := [] }) ∧
    (∀ (env : Env) (now : Nat) (s : IrrigationService) (z d : Nat) (tt u : String),
       validate_zone z = true → is_zone_active s z = true →
       start_irrigation env now s z d tt u =
         { result := .err "ZONE_ALREADY_ACTIVE", state := s, issued := [] }) ∧
    (∀ (env : Env) (now : Nat) (s : IrrigationService) (z d : Nat) (tt u : String),
       validate_zone z = true → is_zone_active s z = false →
       check_daily_limit now s z d = true →
       start_irrigation env now s z d tt u =
         { result := .err "DAILY_LIMIT_EXCEEDED", state := s, issued := [] }) ∧
    (∀ (env : Env) (now : Nat) (s : IrrigationService) (z d : Nat) (tt u : String),
       validate_zone z = true → is_zone_active s z = false →
       check_daily_limit now s z d = false → (check_saturation_risk env z).1 = true →
       start_irrigation env now s z d tt u =
         { result := .err "MOISTURE_TOO_HIGH", state := s, issued := [] }) ∧
    (∀ (env : Env) (now : Nat) (s : IrrigationService) (z : Nat) (u : String),
       is_zone_active s z = false →
       stop_irrigation env now s z u =
         { result := .err "ZONE_NOT_ACTIVE", state := s, issued := [] }) := by
  refine ⟨?_, ?_, ?_, ?_, ?_⟩
  · intro env now s z d tt u h
    simp [start_irrigation, h]
  · intro env now s z d tt u h1 h2
    have hc : check_zone_conflict s z = true := h2
    simp [start_irrigation, h1, hc]
  · intro env now s z d tt u h1 h2 h3
    have hc : check_zone_conflict s z = false := h2
    simp [start_irrigation, h1, hc, h3]
  · intro env now s z d tt u h1 h2 h3 h4
    have hc : check_zone_conflict s z = false := h2
    simp [start_irrigation, h1, hc, h3, h4]
  · intro env now s z u h
    rw [is_zone_active, amem] at h
    have hn : alookup z s.active_irrigations = none := by
      cases hv : alookup z s.active_irrigations with
      | none => rfl
      | some a => rw [hv] at h; simp at h
    unfold stop_irrigation
    rw [hn]

/-- Witness for C7: each of the five rejection branches at a concrete
input, state left untouched every time. -/
theorem C7_witness :
    start_irrigation envNone 0 initialService 9 30 "manual" "w" =
      { result := .err "INVALID_ZONE", state := initialService, issued := [] } ∧
    start_irrigation envNone 60 sZone1Active 1 30 "manual" "w" =
      { result := .err "ZONE_ALREADY_ACTIVE", state := sZone1Active, issued := [] } ∧
    start_irrigation envNone 0 initialService 1 121 "manual" "w" =
      { result := .err "DAILY_LIMIT_EXCEEDED", state := initialService, issued := [] } ∧
    start_irrigation env90 0 initialService 1 30 "manual" "w" =
      { result := .err "MOISTURE_TOO_HIGH", state := initialService, issued := [] } ∧
    stop_irrigation envNone 0 initialService 1 "w" =
      { result := .err "ZONE_NOT_ACTIVE", state := initialService, issued := [] } :=
  ⟨C7_error_atomicity.1 envNone 0 initialService 9 30 "manual" "w" (by decide),
    C7_error_atomicity.2.1 envNone 60 sZone1Active 1 30 "manual" "w" (by decide) (by decide),
    C7_error_atomicity.2.2.1 envNone 0 initialService 1 121 "manual" "w" (by decide) (by decide)
      (by decide),
    C7_error_atomicity.2.2.2.1 env90 0 initialService 1 30 "manual" "w" (by decide) (by decide)
      (by decide) (by decide),
    C7_error_atomicity.2.2.2.2 envNone 0 initialService 1 "w" (by decide)⟩

/-- C9: for any state whose session map is well-formed (distinct zone
keys), `stop_all_irrigation` stops exactly the currently running zones
(`stopped_zones` is the list of tracked zones, the map is emptied),
reports no failed zone, reports overall success, and issues a stop command
to every one of the 5 configured zone ids regardless of tracked state. -/
theorem C9_emergency_stop (env : Env) (now : Nat) (s : IrrigationService) (user_id : String)
    (h : (akeys s.active_irrigations).Nodup) :
    (stop_all_irrigation env now s user_id).result.stopped_zones = akeys s.active_irrigations ∧
    (stop_all_irrigation env now s user_id).result.failed_zones = [] ∧
    (stop_all_irrigation env now s user_id).result.success = true ∧
    (stop_all_irrigation env now s user_id).state.active_irrigations = [] ∧
    ∀ z ∈ VALID_ZONE_IDS,
      ({ zone_id := z, action := "stop", duration := none } : MqttCommand) ∈
        (stop_all_irrigation env now s user_id).issued :=
  stop_all_spec env now s user_id h

/-- Witness for C9: with zones 1 and 3 running and 2, 4, 5 idle, the
emergency stop returns `stopped_zones = [1, 3]`, `failed_zones = []`, and a
stop command is issued to the idle zone 2 as well. -/
theorem C9_witness :
    (stop_all_irrigation envNone 600 sZones13Active "boss").result.stopped_zones = [1, 3] ∧
    (stop_all_irrigation envNone 600 sZones13Active "boss").result.failed_zones = [] ∧
    ({ zone_id := 2, action := "stop", duration := none } : MqttCommand) ∈
      (stop_all_irrigation envNone 600 sZones13Active "boss").issued := by
  obtain ⟨h1, h2, _, _, h5⟩ := C9_emergency_stop envNone 600 sZones13Active "boss" (by decide)
  refine ⟨?_, h2, h5 2 (by decide)⟩
  rw [h1]
  decide

/-- C10: stopping a zone that currently has an `ActiveIrrigation` always
succeeds — the failure outcome of `stop_irrigation` is unreachable once
the zone-active precondition holds — and consequently
`stop_all_irrigation` always returns an empty `failed_zones` list and
overall success: its failed-zones branch is dead code. -/
theorem C10_stop_on_active_cannot_fail :
    (∀ (env : Env) (now : Nat) (s : IrrigationService) (zone_id : Nat) (user_id : String),
       is_zone_active s zone_id = true →
       (stop_irrigation env now s zone_id user_id).result.success = true) ∧
    (∀ (env : Env) (now : Nat) (s : IrrigationService) (user_id : String),
       (akeys s.active_irrigations).Nodup →
       (stop_all_irrigation env now s user_id).result.failed_zones = [] ∧
       (stop_all_irrigation env now s user_id).result.success = true) := by
  constructor
  · intro env now s z u h
    exact (stop_irrigation_active env now u h).1
  · intro env now s u h
    obtain ⟨_, h2, h3, _, _⟩ := stop_all_spec env now s u h
    exact ⟨h2, h3⟩

/-- Witness for C10: stopping the running zone 1 succeeds, and the
emergency stop from the same state reports no failed zone. -/
theorem C10_witness :
    (stop_irrigation envNone 300 sZone1Active 1 "carol").result.success = true ∧
    (stop_all_irrigation envNone 300 sZone1Active "carol").result.failed_zones = [] :=
  ⟨C10_stop_on_active_cannot_fail.1 envNone 300 sZone1Active 1 "carol" (by decide),
    (C10_stop_on_active_cannot_fail.2 envNone 300 sZone1Active "carol" (by decide)).1⟩

end Irrigation

namespace Fanout

open Irrigation (alookup amem aset aerase akeys alookup_cons aset_cons aerase_nil aerase_cons
  alookup_eq_none amem_iff_mem_akeys alookup_mem alookup_aset_eq alookup_aset_ne aset_self
  aset_aset alookup_aerase_eq alookup_aerase_ne aerase_aset)



/-! ## Rate-limit lemmas (`utils/websocket_manager.py`) -/

theorem broadcastSeq_drop (sensor_id : String) (t0 : Nat) :
    ∀ (ts : List Nat) (m : WebSocketManager),
      alookup sensor_id m.last_broadcast_time = some t0 →
      (∀ t ∈ ts, t < t0 + rate_limit_ms) →
      broadcastSeq sensor_id ts m = (m, 0) := by
  intro ts
  induction ts with
  | nil => intro m _ _; rfl
  | cons t ts ih =>
    intro m hl hts
    have hrl : t - t0 < rate_limit_ms := by
      have h1 := hts t (List.mem_cons_self t ts)
      have h2 : rate_limit_ms = 1000 := rfl
      rw [h2] at h1 ⊢
      omega
    have hb : m.broadcast t sensor_id = (false, m, []) := by
      unfold WebSocketManager.broadcast
      simp only [hl]
      rw [if_pos hrl]
    simp only [broadcastSeq, hb]
    rw [ih m hl (fun u hu => hts u (List.mem_cons_of_mem t hu))]
    rfl

/-- C4: a broadcast arriving less than one second after the last recorded
broadcast for the same sensor is a pure no-op — it sends to nobody, leaves
the timestamp map and the connection set untouched, and returns `False`
rather than raising; consequently, of any burst of broadcasts for one
sensor all falling within one second of the first, exactly one delivers. -/
theorem C4_rate_limited_broadcast :
    (∀ (m : WebSocketManager) (now : Nat) (sensor_id : String) (last : Nat),
       alookup sensor_id m.last_broadcast_time = some last →
       now - last < rate_limit_ms →
       m.broadcast now sensor_id = (false, m, [])) ∧
    (∀ (m : WebSocketManager) (sensor_id : String) (t0 : Nat) (ts : List Nat),
       alookup sensor_id m.last_broadcast_time = none →
       m.active_connections.any (fun c => !c.broken) = true →
       (∀ t ∈ ts, t < t0 + rate_limit_ms) →
       (broadcastSeq sensor_id (t0 :: ts) m).2 = 1) := by
  constructor
  · intro m now sensor_id last hl hlt
    unfold WebSocketManager.broadcast
    simp only [hl]
    rw [if_pos hlt]
  · intro m sensor_id t0 ts hl hconn hts
    obtain ⟨c, hc, hcb⟩ := List.any_eq_true.mp hconn
    have hcf : c ∈ m.active_connections.filter (fun c => !c.broken) :=
      List.mem_filter.mpr ⟨hc, hcb⟩
    have hne : m.active_connections.isEmpty = false := by
      cases hm : m.active_connections with
      | nil => rw [hm] at hc; cases hc
      | cons a l => rfl
    have hdne : (m.active_connections.filter (fun c => !c.broken)).isEmpty = false := by
      cases hf : m.active_connections.filter (fun c => !c.broken) with
      | nil => rw [hf] at hcf; cases hcf
      | cons a l => rfl
    have hb : m.broadcast t0 sensor_id =
        (true,
         { active_connections := m.active_connections.filter (fun c => !c.broken),
           last_broadcast_time := aset sensor_id t0 m.last_broadcast_time },
         m.active_connections.filter (fun c => !c.broken)) := by
      unfold WebSocketManager.broadcast
      simp only [hl]
      unfold broadcastDeliver
      simp only [hne, Bool.false_eq_true, if_false, hdne, Bool.not_false]
    simp only [broadcastSeq, hb]
    rw [broadcastSeq_drop sensor_id t0 ts _ (alookup_aset_eq sensor_id t0 m.last_broadcast_time)
      hts]
    simp [hdne]

/-- Witness for C4: with one healthy connection and no prior broadcast,
three broadcasts for sensor V1 at 0 ms, 400 ms and 900 ms deliver exactly
once; and with a broadcast recorded at 0 ms, a call at 500 ms is a no-op
returning `False`. -/
theorem C4_witness :
    (broadcastSeq "V1" [0, 400, 900]
      { active_connections := [{ id := 1, broken := false }],
        last_broadcast_time := [] }).2 = 1 ∧
    WebSocketManager.broadcast
      { active_connections := [{ id := 1, broken := false }],
        last_broadcast_time := [("V1", 0)] } 500 "V1" =
      (false,
       { active_connections := [{ id := 1, broken := false }],
         last_broadcast_time := [("V1", 0)] },
       []) :=
  ⟨C4_rate_limited_broadcast.2
      { active_connections := [{ id := 1, broken := false }], last_broadcast_time := [] }
      "V1" 0 [400, 900] rfl (by decide) (by decide),
    C4_rate_limited_broadcast.1
      { active_connections := [{ id := 1, broken := false }],
        last_broadcast_time := [("V1", 0)] }
      500 "V1" 0 rfl (by decide)⟩

/-! ## Fan-out lemmas (`services/websocket_manager.py`) -/

theorem cmExt {a b : ConnectionManager} (h1 : a.active_connections = b.active_connections)
    (h2 : a.sensor_connections = b.sensor_connections) : a = b := by
  cases a
  cases b
  cases h1
  cases h2
  rfl

theorem erase_foldl_comm {α : Type} [DecidableEq α] :
    ∀ (ys : List α) (x : α) (l : List α), (∀ y ∈ ys, y ≠ x) →
      ys.foldl (fun acc y => acc.erase y) (x :: l) =
        x :: ys.foldl (fun acc y => acc.erase y) l := by
  intro ys
  induction ys with
  | nil => intro x l _; rfl
  | cons y ys ih =>
    intro x l h
    have hyx : y ≠ x := h y (List.mem_cons_self y ys)
    rw [List.foldl_cons, List.foldl_cons, List.erase_cons_tail (by simpa using Ne.symm hyx)]
    exact ih x (l.erase y) (fun u hu => h u (List.mem_cons_of_mem y hu))

theorem erase_foldl_filter {α : Type} [DecidableEq α] (p : α → Bool) :
    ∀ l : List α,
      (l.filter p).foldl (fun acc y => acc.erase y) l = l.filter (fun c => !p c) := by
  intro l
  induction l with
  | nil => rfl
  | cons x xs ih =>
    by_cases hp : p x = true
    · rw [List.filter_cons_of_pos (by simpa using hp), List.foldl_cons, List.erase_cons_head,
        List.filter_cons_of_neg (by simp [hp])]
      exact ih
    · have hp' : p x = false := by simpa using hp
      rw [List.filter_cons_of_neg (by simp [hp']),
        erase_foldl_comm (xs.filter p) x xs
          (fun y hy => fun he => by
            have := (List.mem_filter.mp hy).2
            rw [he, hp'] at this
            cases this),
        ih, List.filter_cons_of_pos (by simp [hp'])]

theorem globalFold_spec :
    ∀ (ds : List WSConn) (m : ConnectionManager),
      (ds.foldl (fun acc c => acc.disconnect c none) m).active_connections =
        ds.foldl (fun acc c => acc.erase c) m.active_connections ∧
      (ds.foldl (fun acc c => acc.disconnect c none) m).sensor_connections =
        m.sensor_connections := by
  intro ds
  induction ds with
  | nil => intro m; exact ⟨rfl, rfl⟩
  | cons d ds ih =>
    intro m
    have hact : (m.disconnect d none).active_connections = m.active_connections.erase d := by
      simp only [ConnectionManager.disconnect]
      by_cases hd : d ∈ m.active_connections
      · rw [if_pos hd]
      · rw [if_neg hd, List.erase_of_not_mem hd]
    have hsen : (m.disconnect d none).sensor_connections = m.sensor_connections := by
      simp only [ConnectionManager.disconnect]
      by_cases hd : d ∈ m.active_connections
      · rw [if_pos hd]
      · rw [if_neg hd]
    rw [List.foldl_cons, List.foldl_cons]
    refine ⟨?_, ?_⟩
    · rw [(ih _).1, hact]
    · rw [(ih _).2, hsen]

theorem sensorFold_entry (sid : String) :
    ∀ (ys : List WSConn) (m : ConnectionManager) (x : WSConn) (l : List WSConn),
      alookup sid m.sensor_connections = some (x :: l) → (∀ y ∈ ys, y ≠ x) →
      ys.foldl (fun acc c => acc.disconnect c (some sid)) m =
        { m with sensor_connections := (aset sid
            (x :: ys.foldl (fun acc y => acc.erase y) l) m.sensor_connections) } := by
  intro ys
  induction ys with
  | nil =>
    intro m x l hl _
    rw [List.foldl_nil, List.foldl_nil]
    conv_rhs => rw [aset_self hl]
  | cons y ys ih =>
    intro m x l hl hy
    have hyx : y ≠ x := hy y (List.mem_cons_self y ys)
    have hstep : m.disconnect y (some sid) =
        { m with sensor_connections := aset sid (x :: l.erase y) m.sensor_connections } := by
      simp only [ConnectionManager.disconnect, hl]
      have hc1 : (if y ∈ x :: l then (x :: l).erase y else x :: l) = x :: l.erase y := by
        by_cases hy2 : y ∈ x :: l
        · rw [if_pos hy2, List.erase_cons_tail (by simpa using Ne.symm hyx)]
        · rw [if_neg hy2]
          have hnl : y ∉ l := fun h => hy2 (List.mem_cons_of_mem x h)
          rw [List.erase_of_not_mem hnl]
      rw [hc1]
      rfl
    rw [List.foldl_cons, hstep,
      ih _ x (l.erase y) (alookup_aset_eq sid (x :: l.erase y) m.sensor_connections)
        (fun u hu => hy u (List.mem_cons_of_mem y hu))]
    exact cmExt rfl (aset_aset sid _ _ m.sensor_connections)

theorem sensorFold_filter (sid : String) (p : WSConn → Bool) :
    ∀ (l : List WSConn) (m : ConnectionManager),
      alookup sid m.sensor_connections = some l → l ≠ [] →
      (l.filter p).foldl (fun acc c => acc.disconnect c (some sid)) m =
        (if (l.filter (fun c => !p c)).isEmpty then
          { m with sensor_connections := aerase sid m.sensor_connections }
        else
          { m with sensor_connections := (aset sid
              (l.filter (fun c => !p c)) m.sensor_connections) }) := by
  intro l
  induction l with
  | nil => intro m _ hne; exact absurd rfl hne
  | cons x xs ih =>
    intro m hl _
    by_cases hp : p x = true
    · have hstep : m.disconnect x (some sid) =
          (if xs.isEmpty then
            { m with sensor_connections := aerase sid m.sensor_connections }
          else
            { m with sensor_connections := aset sid xs m.sensor_connections }) := by
        simp only [ConnectionManager.disconnect, hl]
        rw [if_pos (List.mem_cons_self x xs), List.erase_cons_head]
      rw [List.filter_cons_of_pos (by simpa using hp), List.foldl_cons, hstep]
      cases hxs : xs with
      | nil =>
        subst hxs
        simp only [List.isEmpty_nil, if_true, List.filter_nil, List.foldl_nil]
        rw [List.filter_cons_of_neg (by simp [hp]), List.filter_nil]
        rfl
      | cons x2 xs2 =>
        subst hxs
        simp only [List.isEmpty_cons, Bool.false_eq_true, if_false]
        rw [List.filter_cons_of_neg (p := fun c => !p c) (by simp [hp])]
        rw [ih { m with sensor_connections := aset sid (x2 :: xs2) m.sensor_connections }
          (alookup_aset_eq sid (x2 :: xs2) m.sensor_connections) (by simp)]
        by_cases he : ((x2 :: xs2).filter (fun c => !p c)).isEmpty = true
        · rw [if_pos he, if_pos he]
          exact cmExt rfl (aerase_aset sid _ m.sensor_connections)
        · rw [if_neg he, if_neg he]
          exact cmExt rfl (aset_aset sid _ _ m.sensor_connections)
    · have hp' : p x = false := by simpa using hp
      have hne2 : ∀ y ∈ xs.filter p, y ≠ x := fun y hy he => by
        have := (List.mem_filter.mp hy).2
        rw [he, hp'] at this
        cases this
      rw [List.filter_cons_of_neg (by simp [hp']),
        sensorFold_entry sid (xs.filter p) m x xs hl hne2, erase_foldl_filter p xs,
        List.filter_cons_of_pos (p := fun c => !p c) (by simp [hp'])]
      rw [if_neg (by simp)]

/-- C8: `broadcast_sensor_update sid` delivers to every healthy global
connection and to exactly the healthy subscribers of `sid` (subscribers of
other sensors receive nothing and their lists are untouched); every
connection whose send failed is removed from the registry while delivery
continues to the rest, and the call itself raises nothing. -/
theorem C8_fanout (m : ConnectionManager) (sid : String) (hwf : m.wf = true) :
    (m.broadcast_sensor_update sid).globalDelivered =
      m.active_connections.filter (fun c => !c.broken) ∧
    (m.broadcast_sensor_update sid).sensorDelivered =
      ((alookup sid m.sensor_connections).getD []).filter (fun c => !c.broken) ∧
    (m.broadcast_sensor_update sid).manager.active_connections =
      m.active_connections.filter (fun c => !c.broken) ∧
    (∀ k, k ≠ sid →
      alookup k (m.broadcast_sensor_update sid).manager.sensor_connections =
        alookup k m.sensor_connections) ∧
    alookup sid (m.broadcast_sensor_update sid).manager.sensor_connections =
      ((alookup sid m.sensor_connections).bind (fun l =>
        if (l.filter (fun c => !c.broken)).isEmpty then none
        else some (l.filter (fun c => !c.broken)))) := by
  have hg : m.broadcast =
      (m.active_connections.filter (fun c => !c.broken),
       { m with active_connections := m.active_connections.filter (fun c => !c.broken) }) := by
    unfold ConnectionManager.broadcast
    have h1 := globalFold_spec (m.active_connections.filter (fun c => c.broken)) m
    refine Prod.ext rfl (cmExt ?_ ?_)
    · rw [h1.1, erase_foldl_filter (fun c => c.broken) m.active_connections]
    · exact h1.2
  unfold ConnectionManager.broadcast_sensor_update
  rw [hg]
  cases hls : alookup sid m.sensor_connections with
  | none =>
    have hbs : ConnectionManager.broadcast_to_sensor
        { m with active_connections := m.active_connections.filter (fun c => !c.broken) } sid =
        ([], { m with active_connections :=
          (m.active_connections.filter (fun c => !c.broken)) }) := by
      unfold ConnectionManager.broadcast_to_sensor
      rw [show alookup sid ({ m with active_connections := (
        m.active_connections.filter (fun c => !c.broken)) } : ConnectionManager).sensor_connections =
        none from hls]
    rw [hbs]
    exact ⟨rfl, rfl, rfl, fun k _ => rfl, by simp [hls]⟩
  | some l =>
    have hlne : l ≠ [] := by
      have hm := alookup_mem hls
      have := List.all_eq_true.mp hwf _ hm
      intro he
      rw [he] at this
      cases this
    have hbs : ConnectionManager.broadcast_to_sensor
        { m with active_connections := m.active_connections.filter (fun c => !c.broken) } sid =
        (l.filter (fun c => !c.broken),
         (l.filter (fun c => c.broken)).foldl (fun acc c => acc.disconnect c (some sid))
           { m with active_connections :=
             (m.active_connections.filter (fun c => !c.broken)) }) := by
      unfold ConnectionManager.broadcast_to_sensor
      rw [show alookup sid ({ m with active_connections := (
        m.active_connections.filter (fun c => !c.broken)) } : ConnectionManager).sensor_connections =
        some l from hls]
    rw [hbs]
    have hfold := sensorFold_filter sid (fun c => c.broken) l
      { m with active_connections := m.active_connections.filter (fun c => !c.broken) }
      (show alookup sid m.sensor_connections = some l from hls) hlne
    rw [hfold]
    have hb2 : ((some l).bind (fun l2 =>
        if (l2.filter (fun c => !c.broken)).isEmpty = true then none
        else some (l2.filter (fun c => !c.broken)))) =
        (if (l.filter (fun c => !c.broken)).isEmpty = true then none
        else some (l.filter (fun c => !c.broken))) := rfl
    by_cases he : (l.filter (fun c => !c.broken)).isEmpty = true
    · rw [if_pos he]
      refine ⟨rfl, rfl, rfl, ?_, ?_⟩
      · intro k hk
        exact alookup_aerase_ne m.sensor_connections hk
      · rw [alookup_aerase_eq, hb2, if_pos he]
    · rw [if_neg he]
      refine ⟨rfl, rfl, rfl, ?_, ?_⟩
      · intro k hk
        exact alookup_aset_ne _ m.sensor_connections hk
      · rw [alookup_aset_eq, hb2, if_neg he]

/-- Witness for C8: broadcasting a V1 update over `fanoutSample` reaches
the healthy global connection and the healthy V1 subscriber only, and
leaves the V2 subscriber list untouched. -/
theorem C8_witness :
    (fanoutSample.broadcast_sensor_update "V1").globalDelivered = [{ id := 1, broken := false }] ∧
    (fanoutSample.broadcast_sensor_update "V1").sensorDelivered = [{ id := 3, broken := false }] ∧
    alookup "V2" (fanoutSample.broadcast_sensor_update "V1").manager.sensor_connections =
      some [{ id := 4, broken := true }] := by
  obtain ⟨h1, h2, _, h4, _⟩ := C8_fanout fanoutSample "V1" (by decide)
  refine ⟨?_, ?_, ?_⟩
  · rw [h1]; decide
  · rw [h2]; decide
  · rw [h4 "V2" (by decide)]; decide

/-- C3 (code-bug exhibit): for every parsed sensor payload, the registered
MQTT callback `handle_mqtt_sensor_update` raises `AttributeError` —
`ConnectionManager` defines no `broadcast_live_sensor_data` attribute — so
it never invokes any fan-out operation of the registry and no reading is
delivered to subscribers. -/
theorem C3_callback_raises_attribute_error :
    ∀ data : List (String × String),
      (handle_mqtt_sensor_update data).raised =
        some "AttributeError: broadcast_live_sensor_data" ∧
      (handle_mqtt_sensor_update data).fanoutInvoked = false := by
  intro data
  exact ⟨rfl, rfl⟩

end Fanout
